import Mathlib

/-!
Shallow embedding of the OncClickOp backend (`backend/app/main.py`):
a multi-platform publishing service.  Pure data and control flow are
translated into Lean functions; the effects of the Python code (browser
automation, file writes, tracker writes, sleeps) are made explicit as
event traces, and the external environment (filesystem contents, the
outcome of each Selenium operation) is an explicit parameter.
-/

namespace OncClickOp

/-- Mirrors the pydantic model `PublishStatus` in `backend/app/main.py`.
Timestamps are modelled as abstract `Nat` ticks. -/
structure PublishStatus where
  platform : String
  status : String
  message : Option String
  timestamp : Nat
deriving Repr, DecidableEq

/-- Effects performed by `publish_to_xiaohongshu` (browser automation and
driver lifecycle), in program order. -/
inductive XhsEvent where
  | getEdgeDriver
  | driverGet (url : String)
  | addCookies
  | waitFileInput
  | sendKeysFile (path : String)
  | waitUploadSuccess
  | waitTitleInput
  | sendTitle (title : String)
  | sendDescription (desc : String)
  | descFieldMissingWarn
  | sleep (secs : Nat)
  | waitPublishBtn
  | clickPublish
  | waitSuccessUrl
  | driverQuit
  | driverQuitAttempt
deriving Repr, DecidableEq

/-- Environment of one xiaohongshu publish attempt: whether the cookie
file `COOKIE_FILE` exists on disk, whether the optional description field
is present on the page, at which automation step (if any) Selenium raises
an exception carrying `errMsg`, and the current clock tick. -/
structure XhsEnv where
  cookieFileExists : Bool
  descFieldPresent : Bool
  failAt : Option Nat
  errMsg : String
  now : Nat

/-- The fixed automation sequence of `publish_to_xiaohongshu` after the
cookie-file precondition check, in source order. -/
def xhsSteps (env : XhsEnv) (videoPath title desc : String) : List XhsEvent :=
  [XhsEvent.getEdgeDriver,
   XhsEvent.driverGet "https://creator.xiaohongshu.com",
   XhsEvent.addCookies,
   XhsEvent.driverGet "https://creator.xiaohongshu.com/publish/publish",
   XhsEvent.waitFileInput,
   XhsEvent.sendKeysFile videoPath,
   XhsEvent.waitUploadSuccess,
   XhsEvent.waitTitleInput,
   XhsEvent.sendTitle title]
  ++ (if desc ≠ "" then
        (if env.descFieldPresent then [XhsEvent.sendDescription desc]
         else [XhsEvent.descFieldMissingWarn])
      else [])
  ++ [XhsEvent.sleep 2,
      XhsEvent.waitPublishBtn,
      XhsEvent.clickPublish,
      XhsEvent.waitSuccessUrl,
      XhsEvent.sleep 3]

/-- Run the automation steps against the environment: if the environment
says Selenium raises at step `k` (and step `k` exists), the steps before
`k` have executed and the run ends exceptionally; otherwise all steps
execute normally.  Returns the executed events and whether an exception
was raised. -/
def runSteps (steps : List XhsEvent) (failAt : Option Nat) : List XhsEvent × Bool :=
  match failAt with
  | none => (steps, false)
  | some k => if k < steps.length then (steps.take k, true) else (steps, false)

/-- The body of the `try:` block of `publish_to_xiaohongshu`: either a
normal return (`Except.ok`) with the produced status and event trace, or
a raised exception (`Except.error`) carrying the error text and the
events performed before the raise. -/
def publish_to_xiaohongshu_run (env : XhsEnv) (videoPath title desc : String) :
    Except (String × List XhsEvent) (PublishStatus × List XhsEvent) :=
  if env.cookieFileExists = false then
    Except.ok (⟨"xiaohongshu", "failed", some "请先登录小红书", env.now⟩, [])
  else
    match runSteps (xhsSteps env videoPath title desc) env.failAt with
    | (tr, false) =>
        Except.ok (⟨"xiaohongshu", "success", some "发布成功", env.now⟩,
                   tr ++ [XhsEvent.driverQuit])
    | (tr, true) => Except.error (env.errMsg, tr)

/-- `publish_to_xiaohongshu` with its outer `except Exception` handler:
an exception from the body is converted into a `failed` status record
(message `"发布失败: " ++ e`) after attempting `driver.quit()`; no
exception propagates to the caller. -/
def publish_to_xiaohongshu (env : XhsEnv) (videoPath title desc : String) :
    PublishStatus × List XhsEvent :=
  match publish_to_xiaohongshu_run env videoPath title desc with
  | Except.ok r => r
  | Except.error (e, tr) =>
      (⟨"xiaohongshu", "failed", some ("发布失败: " ++ e), env.now⟩,
       tr ++ [XhsEvent.driverQuitAttempt])

/-- Placeholder publisher `publish_to_bilibili`: returns a fixed status
without any automation. -/
def publish_to_bilibili (env : XhsEnv) (_videoPath _title _desc : String) :
    PublishStatus × List XhsEvent :=
  (⟨"bilibili", "pending", some "Bilibili发布功能开发中", env.now⟩, [])

/-- Placeholder publisher `publish_to_weibo`: returns a fixed status
without any automation. -/
def publish_to_weibo (env : XhsEnv) (_videoPath _title _desc : String) :
    PublishStatus × List XhsEvent :=
  (⟨"weibo", "pending", some "微博发布功能开发中", env.now⟩, [])

/-- The `PLATFORM_PUBLISHERS` dispatch dictionary. -/
def PLATFORM_PUBLISHERS (pid : String) :
    Option (XhsEnv → String → String → String → PublishStatus × List XhsEvent) :=
  if pid = "xiaohongshu" then some publish_to_xiaohongshu
  else if pid = "bilibili" then some publish_to_bilibili
  else if pid = "weibo" then some publish_to_weibo
  else none

/-- Association-list insert-or-replace, the update semantics of a Python
dict assignment `m[k] = v` (insertion order preserved). -/
def insertA {α : Type} : List (String × α) → String → α → List (String × α)
  | [], k, v => [(k, v)]
  | (k', v') :: rest, k, v =>
      if k' = k then (k, v) :: rest else (k', v') :: insertA rest k v

/-- Association-list lookup, the semantics of a Python dict read. -/
def lookupA {α : Type} : List (String × α) → String → Option α
  | [], _ => none
  | (k', v) :: rest, k => if k' = k then some v else lookupA rest k

/-- The `pending` record written for each platform by `publish_video`
when a job is created. -/
def pendingStatus (pid : String) (now : Nat) : PublishStatus :=
  ⟨pid, "pending", some "等待发布", now⟩

/-- The `uploading` record written by `publish_to_platforms` when it
begins a platform. -/
def uploadingStatus (pid : String) (now : Nat) : PublishStatus :=
  ⟨pid, "uploading", some "正在发布...", now⟩

/-- Observable effects of the background task `publish_to_platforms`:
writes to the shared `publish_status` tracker and the fixed
`asyncio.sleep` delay between platforms. -/
inductive PubEvent where
  | statusWrite (jobId : String) (pid : String) (st : PublishStatus)
  | interDelay (secs : Nat)
deriving Repr, DecidableEq

/-- The final status record computed for one platform inside the loop of
`publish_to_platforms`: the registered publisher's result, or the fixed
unsupported-platform record when no publisher is registered. -/
def platformResult (env : XhsEnv) (pid videoPath title desc : String) : PublishStatus :=
  match PLATFORM_PUBLISHERS pid with
  | some pub => (pub env videoPath title desc).1
  | none => ⟨pid, "failed", some "不支持的平台", env.now⟩

/-- The background task `publish_to_platforms`, as the trace of tracker
writes and delays it performs, in program order: for each platform in the
caller-supplied order, write `uploading`, run the publisher (or the
unsupported-platform branch) and write its result, then sleep 5 seconds. -/
def publish_to_platforms (env : XhsEnv) (jobId videoPath title desc : String) :
    List String → List PubEvent
  | [] => []
  | pid :: rest =>
      PubEvent.statusWrite jobId pid (uploadingStatus pid env.now) ::
      PubEvent.statusWrite jobId pid (platformResult env pid videoPath title desc) ::
      PubEvent.interDelay 5 ::
      publish_to_platforms env jobId videoPath title desc rest

/-- Replay a trace of tracker writes onto one job's per-platform map. -/
def applyPubEvents (jobMap : List (String × PublishStatus)) :
    List PubEvent → List (String × PublishStatus)
  | [] => jobMap
  | PubEvent.statusWrite _ pid st :: rest => applyPubEvents (insertA jobMap pid st) rest
  | PubEvent.interDelay _ :: rest => applyPubEvents jobMap rest

/-- The sequence of status records written for one platform, in write
order. -/
def writesFor (pid : String) : List PubEvent → List PublishStatus
  | [] => []
  | PubEvent.statusWrite _ p st :: rest =>
      if p = pid then st :: writesFor pid rest else writesFor pid rest
  | PubEvent.interDelay _ :: rest => writesFor pid rest

/-- The platform ids of all tracker writes, in write order. -/
def writePids : List PubEvent → List String
  | [] => []
  | PubEvent.statusWrite _ p _ :: rest => p :: writePids rest
  | PubEvent.interDelay _ :: rest => writePids rest

/-- One step of the in-flight tracking: a tracker write moves the
platform into the in-flight set iff the written status is `uploading`,
and out of it otherwise. -/
def inflightUpd (cur : List String) (e : PubEvent) : List String :=
  match e with
  | PubEvent.statusWrite _ p st =>
      if st.status = "uploading" then p :: cur.erase p else cur.erase p
  | PubEvent.interDelay _ => cur

/-- Platforms whose most recent tracker write in the trace is
`uploading` (the platforms "in flight" after the trace). -/
def inflightAfter (tr : List PubEvent) : List String :=
  tr.foldl inflightUpd []

/-- Request body of `POST /api/publish` (`PublishRequest`). -/
structure PublishRequest where
  video_path : String
  title : String
  description : String
  platforms : List String

/-- A background task scheduled via `background_tasks.add_task`: the
arguments `publish_to_platforms` will later be run with.  Scheduling is
data; no work of the task has happened yet when the endpoint returns. -/
structure BackgroundTask where
  jobId : String
  videoPath : String
  title : String
  description : String
  platforms : List String
deriving Repr, DecidableEq

/-- Environment of the `publish_video` endpoint: which paths exist on
disk (`os.path.exists`) and the current clock tick, from which the
time-derived job id is produced. -/
structure ServerEnv where
  fileExists : String → Bool
  now : Nat

/-- Result of one call to the `publish_video` endpoint: the HTTP error
(if raised), the returned job id, the tracker mapping after the call and
the background tasks scheduled by the call. -/
structure PublishOutcome where
  httpError : Option (Nat × String)
  jobId : Option String
  tracker : List (String × List (String × PublishStatus))
  tasks : List BackgroundTask

/-- The endpoint `publish_video` (`POST /api/publish`): validate that
the video file exists (else HTTP 404 before anything else), create the
time-derived job id, initialise every requested platform to `pending`
in the tracker, schedule the background task, and return the job id. -/
def publish_video (env : ServerEnv) (req : PublishRequest)
    (tracker : List (String × List (String × PublishStatus))) : PublishOutcome :=
  if env.fileExists req.video_path = false then
    ⟨some (404, "视频文件不存在"), none, tracker, []⟩
  else
    let jobId := toString env.now
    let jobMap := req.platforms.foldl
      (fun m pid => insertA m pid (pendingStatus pid env.now)) []
    ⟨none, some jobId,
     insertA (insertA tracker jobId []) jobId jobMap,
     [⟨jobId, req.video_path, req.title, req.description, req.platforms⟩]⟩

/-- The configured cookie-file path (`COOKIE_FILE`). -/
def COOKIE_FILE : String := "D:\\myCook.txt"

/-- The files the login watcher writes, identified structurally. -/
inductive FileId where
  | cookieFile
  | userLoginHistory (ts : Nat)
  | latestLogin
deriving Repr, DecidableEq

/-- Concrete filesystem path of each written file, as in the source. -/
def filePathOf : FileId → String
  | FileId.cookieFile => COOKIE_FILE
  | FileId.userLoginHistory ts => "data/user_login_" ++ toString ts ++ ".json"
  | FileId.latestLogin => "data/latest_login.json"

/-- Effects performed by the login watcher
`monitor_xiaohongshu_login`. -/
inductive MonEvent where
  | getDriver
  | navigateLogin
  | waitAttempt (waitCount : Nat) (timeoutSecs : Nat)
  | fileWrite (file : FileId) (cookies : List String)
  | driverQuit
deriving Repr, DecidableEq

/-- The `user_info` dict assembled by the watcher on login success. -/
structure UserInfo where
  login_time : Nat
  cookies : List String
  platform : String
  status : String
deriving Repr, DecidableEq

/-- `save_user_data`: write a timestamped historical copy and overwrite
the "latest login" record, both with the same `user_info` payload (the
write events carry the contained cookie array). -/
def save_user_data (info : UserInfo) : List MonEvent :=
  [MonEvent.fileWrite (FileId.userLoginHistory info.login_time) info.cookies,
   MonEvent.fileWrite FileId.latestLogin info.cookies]

/-- Environment of one login-watch run: whether `get_edge_driver`
succeeds, the first poll attempt (if any) from which the success
indicator `//div[@class='personal']` is present, the cookies the browser
context holds, and the clock tick. -/
structure MonitorEnv where
  driverOk : Bool
  detectedAt : Option Nat
  browserCookies : List String
  now : Nat

/-- Whether the success indicator is present during poll attempt `c`. -/
def detected (env : MonitorEnv) (c : Nat) : Bool :=
  match env.detectedAt with
  | some k => k ≤ c
  | none => false

/-- The polling loop of `monitor_xiaohongshu_login`, from the current
`wait_count`: each iteration waits up to 10 seconds for the indicator;
on success it saves the cookies to `COOKIE_FILE`, calls
`save_user_data`, and quits the driver; on `TimeoutException` it
increments `wait_count` and gives up (quitting the driver) once
`wait_count` reaches 30. -/
def monitorLoop (env : MonitorEnv) (waitCount : Nat) : List MonEvent :=
  if detected env waitCount then
    MonEvent.waitAttempt waitCount 10 ::
    MonEvent.fileWrite FileId.cookieFile env.browserCookies ::
    save_user_data ⟨env.now, env.browserCookies, "xiaohongshu", "logged_in"⟩ ++
    [MonEvent.driverQuit]
  else if h30 : waitCount + 1 ≥ 30 then
    [MonEvent.waitAttempt waitCount 10, MonEvent.driverQuit]
  else
    MonEvent.waitAttempt waitCount 10 :: monitorLoop env (waitCount + 1)
termination_by 30 - waitCount
decreasing_by omega

/-- Result of one login-watch run: the events performed and the value of
the global `selenium_monitor_active` flag after the `finally:` block. -/
structure MonitorResult where
  events : List MonEvent
  monitorActive : Bool

/-- `monitor_xiaohongshu_login`: create the driver (its failure is caught
and only logged), navigate to the login page, run the polling loop; the
`finally:` block always clears the monitor-active flag. -/
def monitor_xiaohongshu_login (env : MonitorEnv) : MonitorResult :=
  if env.driverOk then
    ⟨MonEvent.getDriver :: MonEvent.navigateLogin :: monitorLoop env 0, false⟩
  else
    ⟨[], false⟩

/-- Wait-timeouts used by the poll attempts of a trace, in order. -/
def waitTimeouts : List MonEvent → List Nat
  | [] => []
  | MonEvent.waitAttempt _ t :: rest => t :: waitTimeouts rest
  | _ :: rest => waitTimeouts rest

/-- Cookie payloads of the writes a trace performs to file `f`,
in order. -/
def writtenCookies (f : FileId) : List MonEvent → List (List String)
  | [] => []
  | MonEvent.fileWrite g c :: rest =>
      if g = f then c :: writtenCookies f rest else writtenCookies f rest
  | _ :: rest => writtenCookies f rest

/-- Mirrors the pydantic model `AppInfo` (static catalog entry). -/
structure AppInfo where
  id : String
  name : String
  display_name : String
  icon : String
  background : String
  category : String
  executable_path : Option String
  url : Option String
  descriptionText : Option String
  special_handler : Option String
  publishable : Bool
deriving Repr, DecidableEq

/-- The static `apps_database` dictionary, keyed by display name. -/
def apps_database : List (String × AppInfo) :=
  [("小红书", ⟨"xiaohongshu", "Xiaohongshu", "小红书", "🔥",
      "linear-gradient(45deg, #ff1744, #ff6b6b)", "social", none,
      some "https://creator.xiaohongshu.com/login", none,
      some "xiaohongshu_login", true⟩),
   ("哔哩哔哩", ⟨"bilibili", "Bilibili", "哔哩哔哩", "📺",
      "linear-gradient(45deg, #ff69b4, #ff1493)", "entertainment", none,
      some "https://www.bilibili.com", none, none, true⟩),
   ("微博", ⟨"weibo", "Weibo", "微博", "👁️",
      "linear-gradient(45deg, #ff8c00, #ffd700)", "social", none,
      some "https://weibo.com", none, none, true⟩),
   ("TikTok", ⟨"tiktok", "TikTok", "TikTok", "🎵",
      "linear-gradient(45deg, #000, #333)", "social", none,
      some "https://www.tiktok.com", none, none, true⟩),
   ("知乎", ⟨"zhihu", "Zhihu", "知乎", "💡",
      "linear-gradient(45deg, #4169e1, #87cefa)", "knowledge", none,
      some "https://www.zhihu.com", none, none, false⟩),
   ("头条", ⟨"toutiao", "Toutiao", "头条", "📰",
      "linear-gradient(45deg, #dc143c, #ff6347)", "news", none,
      some "https://www.toutiao.com", none, none, true⟩)]

/-- App lookup performed by `open_app`: direct key lookup, then a scan
comparing `display_name` and `name`. -/
def findApp (app_name : String) : Option AppInfo :=
  match lookupA apps_database app_name with
  | some a => some a
  | none =>
      (apps_database.map Prod.snd).find?
        (fun a => a.display_name = app_name ∨ a.name = app_name)

/-- Response model `OpenAppResponse` (timestamp omitted; it is never
read by any caller in the repository). -/
structure OpenAppResponse where
  success : Bool
  message : String
  action : Option String
deriving Repr, DecidableEq

/-- Side effects `open_app` can perform. -/
inductive AppAction where
  | startMonitorThread
  | openUrl (url : String)
deriving Repr, DecidableEq

/-- Environment of one `open_app` request: whether the OS-level URL open
succeeds, and the error text if it does not. -/
structure OpenEnv where
  osOpenOk : Bool
  osErr : String

/-- Result of one `open_app` request: HTTP error (if raised), the
response (otherwise), the monitor-active flag after the request, and the
side effects performed. -/
structure OpenAppOutcome where
  httpError : Option Nat
  response : Option OpenAppResponse
  monitorActive : Bool
  actions : List AppAction
deriving Repr, DecidableEq

/-- The endpoint `open_app` (`POST /api/open-app`), parametrised by the
current value of the global `selenium_monitor_active` flag: unknown app
is HTTP 404; the app with special handler `xiaohongshu_login` starts the
login-monitor thread and sets the flag iff the flag is clear, and is
otherwise rejected with a non-error already-running response; any other
app is opened via its URL. -/
def open_app (app_name : String) (monitorActive : Bool) (env : OpenEnv) : OpenAppOutcome :=
  match findApp app_name with
  | none => ⟨some 404, none, monitorActive, []⟩
  | some app =>
      if app.special_handler = some "xiaohongshu_login" then
        if monitorActive = false then
          ⟨none, some ⟨true, "请在弹出的窗口中登录小红书创作者中心", some "selenium_login"⟩,
           true, [AppAction.startMonitorThread]⟩
        else
          ⟨none, some ⟨false, "登录监控已在运行中，请完成当前登录", none⟩,
           monitorActive, []⟩
      else
        match app.url with
        | some u =>
            if env.osOpenOk then
              ⟨none, some ⟨true, "Successfully opened " ++ app.display_name, none⟩,
               monitorActive, [AppAction.openUrl u]⟩
            else
              ⟨none, some ⟨false,
                 "Failed to open " ++ app.display_name ++ ": " ++ env.osErr, none⟩,
               monitorActive, []⟩
        | none =>
            ⟨none, some ⟨true, app.display_name ++ " has no launch method", none⟩,
             monitorActive, []⟩

/-- Number of login-monitor threads an action list starts. -/
def countStarts : List AppAction → Nat
  | [] => 0
  | AppAction.startMonitorThread :: rest => countStarts rest + 1
  | _ :: rest => countStarts rest

/-- Global system state relevant to the login watcher: the
`selenium_monitor_active` flag and the number of watcher threads
currently running. -/
structure SysState where
  monitorActive : Bool
  runningWatches : Nat
deriving Repr, DecidableEq

/-- Atomic system transitions: an `open_app` request (which may start a
watcher thread and update the flag, as computed by `open_app`), or a
running watcher finishing (its `finally:` block clears the flag). -/
inductive SysStep : SysState → SysState → Prop where
  | request (app_name : String) (env : OpenEnv) (s : SysState) :
      SysStep s ⟨(open_app app_name s.monitorActive env).monitorActive,
                 s.runningWatches + countStarts (open_app app_name s.monitorActive env).actions⟩
  | monitorEnd (s : SysState) (h : 0 < s.runningWatches) :
      SysStep s ⟨false, s.runningWatches - 1⟩

/-- States reachable from process start (flag clear, no watcher). -/
inductive Reachable : SysState → Prop where
  | init : Reachable ⟨false, 0⟩
  | step {s s' : SysState} : Reachable s → SysStep s s' → Reachable s'

/-- C1: a publish attempt against xiaohongshu with no cookie file on
disk returns a `failed` status with the not-authenticated message
`请先登录小红书`, with an empty effect trace: it returns before
`get_edge_driver` or any driver operation is invoked. -/
theorem xhs_no_cookie_short_circuit (env : XhsEnv) (v t d : String)
    (h : env.cookieFileExists = false) :
    publish_to_xiaohongshu env v t d =
      (⟨"xiaohongshu", "failed", some "请先登录小红书", env.now⟩, []) := by
  simp [publish_to_xiaohongshu, publish_to_xiaohongshu_run, h]

/-- Witness for C1: a concrete environment with no cookie file. -/
theorem xhs_no_cookie_short_circuit_witness :
    publish_to_xiaohongshu ⟨false, true, none, "", 0⟩ "v.mp4" "标题" "" =
      (⟨"xiaohongshu", "failed", some "请先登录小红书", 0⟩, []) :=
  xhs_no_cookie_short_circuit ⟨false, true, none, "", 0⟩ "v.mp4" "标题" "" rfl

/-- C9: when the cookie precondition holds and Selenium raises at any
step `k` of the automation sequence, `publish_to_xiaohongshu` catches
the exception at its outer boundary, attempts `driver.quit()`, and
returns (rather than raises) a `failed` status whose message carries the
underlying error text. -/
theorem xhs_exception_caught (env : XhsEnv) (v t d : String) (k : Nat)
    (hc : env.cookieFileExists = true) (hf : env.failAt = some k)
    (hk : k < (xhsSteps env v t d).length) :
    publish_to_xiaohongshu env v t d =
      (⟨"xiaohongshu", "failed", some ("发布失败: " ++ env.errMsg), env.now⟩,
       (xhsSteps env v t d).take k ++ [XhsEvent.driverQuitAttempt]) := by
  simp [publish_to_xiaohongshu, publish_to_xiaohongshu_run, runSteps, hc, hf, hk]

/-- Witness for C9: Selenium raises at step 2 (loading the cookies into
the driver) with error text `boom`. -/
theorem xhs_exception_caught_witness :
    publish_to_xiaohongshu ⟨true, true, some 2, "boom", 7⟩ "v.mp4" "标题" "" =
      (⟨"xiaohongshu", "failed", some ("发布失败: " ++ "boom"), 7⟩,
       (xhsSteps ⟨true, true, some 2, "boom", 7⟩ "v.mp4" "标题" "").take 2
         ++ [XhsEvent.driverQuitAttempt]) :=
  xhs_exception_caught ⟨true, true, some 2, "boom", 7⟩ "v.mp4" "标题" "" 2
    rfl rfl (by decide)

/-- Inserting a key and looking it up yields the inserted value. -/
lemma lookupA_insertA_self {α : Type} (m : List (String × α)) (k : String) (v : α) :
    lookupA (insertA m k v) k = some v := by
  induction m with
  | nil => simp [insertA, lookupA]
  | cons hd tl ih =>
      obtain ⟨k', v'⟩ := hd
      by_cases h : k' = k
      · simp [insertA, lookupA, h]
      · simp [insertA, lookupA, h, ih]

/-- Inserting under a different key leaves a lookup unchanged. -/
lemma lookupA_insertA_ne {α : Type} (m : List (String × α)) (k' k : String) (v : α)
    (h : k' ≠ k) : lookupA (insertA m k' v) k = lookupA m k := by
  induction m with
  | nil => simp [insertA, lookupA, h]
  | cons hd tl ih =>
      obtain ⟨k0, v0⟩ := hd
      have h' : ¬ (k = k') := fun hh => h hh.symm
      by_cases h0 : k0 = k'
      · subst h0
        simp [insertA, lookupA, h]
      · by_cases h1 : k0 = k <;> simp [insertA, lookupA, h0, h1, h', ih]

/-- After the initialisation fold of `publish_video`, every platform of
the list maps to its `pending` record (platforms already mapped to
`pending` stay so). -/
lemma lookupA_pending_foldl (now : Nat) (pid : String) :
    ∀ (l : List String) (m : List (String × PublishStatus)),
      (pid ∈ l ∨ lookupA m pid = some (pendingStatus pid now)) →
      lookupA (l.foldl (fun m p => insertA m p (pendingStatus p now)) m) pid
        = some (pendingStatus pid now) := by
  intro l
  induction l with
  | nil =>
      intro m h
      rcases h with h | h
      · cases h
      · simpa using h
  | cons p rest ih =>
      intro m h
      simp only [List.foldl_cons]
      apply ih
      by_cases hpp : p = pid
      · subst hpp
        right
        exact lookupA_insertA_self m p (pendingStatus p now)
      · rcases h with h | h
        · rcases List.mem_cons.mp h with h' | h'
          · exact absurd h'.symm hpp
          · exact Or.inl h'
        · right
          rw [lookupA_insertA_ne m p pid (pendingStatus p now) hpp]
          exact h

/-- C4: when the video file exists, `publish_video` raises no HTTP
error, initialises every requested platform to `pending` in the tracker,
schedules exactly the one background task (which has performed no work
at return time), and returns the time-derived job identifier. -/
theorem publish_video_initializes_pending (env : ServerEnv) (req : PublishRequest)
    (tracker : List (String × List (String × PublishStatus)))
    (h : env.fileExists req.video_path = true) :
    (publish_video env req tracker).httpError = none ∧
    (publish_video env req tracker).jobId = some (toString env.now) ∧
    (∀ pid ∈ req.platforms,
      ((lookupA (publish_video env req tracker).tracker (toString env.now)).bind
          (fun m => lookupA m pid))
        = some (pendingStatus pid env.now)) ∧
    (publish_video env req tracker).tasks
      = [⟨toString env.now, req.video_path, req.title, req.description, req.platforms⟩] := by
  refine ⟨by simp [publish_video, h], by simp [publish_video, h], ?_, by simp [publish_video, h]⟩
  intro pid hp
  simp [publish_video, h, lookupA_insertA_self]
  exact lookupA_pending_foldl env.now pid req.platforms [] (Or.inl hp)

/-- Witness for C4: a concrete request for two platforms against an
empty tracker. -/
theorem publish_video_initializes_pending_witness :
    (publish_video ⟨fun _ => true, 3⟩ ⟨"v.mp4", "t", "", ["xiaohongshu", "weibo"]⟩ []).httpError
        = none ∧
    (publish_video ⟨fun _ => true, 3⟩ ⟨"v.mp4", "t", "", ["xiaohongshu", "weibo"]⟩ []).jobId
        = some (toString (3 : Nat)) ∧
    (∀ pid ∈ ["xiaohongshu", "weibo"],
      ((lookupA (publish_video ⟨fun _ => true, 3⟩
            ⟨"v.mp4", "t", "", ["xiaohongshu", "weibo"]⟩ []).tracker (toString (3 : Nat))).bind
          (fun m => lookupA m pid))
        = some (pendingStatus pid 3)) ∧
    (publish_video ⟨fun _ => true, 3⟩ ⟨"v.mp4", "t", "", ["xiaohongshu", "weibo"]⟩ []).tasks
      = [⟨toString (3 : Nat), "v.mp4", "t", "", ["xiaohongshu", "weibo"]⟩] :=
  publish_video_initializes_pending ⟨fun _ => true, 3⟩
    ⟨"v.mp4", "t", "", ["xiaohongshu", "weibo"]⟩ [] rfl

/-- C10: when the video file does not exist, `publish_video` fails with
HTTP 404 (`视频文件不存在`) before any job is created: no job id is
allocated, the tracker is returned unchanged, and no background task is
scheduled. -/
theorem publish_video_missing_file (env : ServerEnv) (req : PublishRequest)
    (tracker : List (String × List (String × PublishStatus)))
    (h : env.fileExists req.video_path = false) :
    publish_video env req tracker = ⟨some (404, "视频文件不存在"), none, tracker, []⟩ := by
  simp [publish_video, h]

/-- Witness for C10: a concrete request whose video path names no
existing file. -/
theorem publish_video_missing_file_witness :
    publish_video ⟨fun _ => false, 3⟩ ⟨"ghost.mp4", "t", "", ["weibo"]⟩ []
      = ⟨some (404, "视频文件不存在"), none, [], []⟩ :=
  publish_video_missing_file ⟨fun _ => false, 3⟩ ⟨"ghost.mp4", "t", "", ["weibo"]⟩ [] rfl

/-- A xiaohongshu publish attempt always ends in `failed` or
`success`. -/
lemma xhs_status_cases (env : XhsEnv) (v t d : String) :
    (publish_to_xiaohongshu env v t d).1.status = "failed" ∨
    (publish_to_xiaohongshu env v t d).1.status = "success" := by
  unfold publish_to_xiaohongshu publish_to_xiaohongshu_run
  by_cases hc : env.cookieFileExists = false
  · simp [hc]
  · simp only [hc, if_false]
    rcases hr : runSteps (xhsSteps env v t d) env.failAt with ⟨tr, b⟩
    cases b <;> simp

/-- The final record `publish_to_platforms` writes for a platform never
has status `uploading`. -/
lemma platformResult_status_ne_uploading (env : XhsEnv) (pid v t d : String) :
    (platformResult env pid v t d).status ≠ "uploading" := by
  by_cases h1 : pid = "xiaohongshu"
  · simp only [platformResult, PLATFORM_PUBLISHERS, h1, if_true]
    rcases xhs_status_cases env v t d with h | h <;> simp [h]
  · by_cases h2 : pid = "bilibili"
    · simp [platformResult, PLATFORM_PUBLISHERS, h1, h2, publish_to_bilibili]
    · by_cases h3 : pid = "weibo"
      · simp [platformResult, PLATFORM_PUBLISHERS, h1, h2, h3, publish_to_weibo]
      · simp [platformResult, PLATFORM_PUBLISHERS, h1, h2, h3]

/-- `writesFor` distributes over trace concatenation. -/
lemma writesFor_append (pid : String) (tr1 tr2 : List PubEvent) :
    writesFor pid (tr1 ++ tr2) = writesFor pid tr1 ++ writesFor pid tr2 := by
  induction tr1 with
  | nil => simp [writesFor]
  | cons e rest ih =>
      cases e with
      | statusWrite j p st =>
          by_cases h : p = pid <;> simp [writesFor, h, ih]
      | interDelay s => simp [writesFor, ih]

/-- A platform not in the job's list is never written by the background
task. -/
lemma writesFor_not_mem (env : XhsEnv) (jobId v t d : String) (pid : String) :
    ∀ (ps : List String), pid ∉ ps →
      writesFor pid (publish_to_platforms env jobId v t d ps) = [] := by
  intro ps
  induction ps with
  | nil => intro _; simp [publish_to_platforms, writesFor]
  | cons p rest ih =>
      intro hmem
      have hne : ¬ (p = pid) := fun hh => hmem (hh ▸ List.mem_cons_self p rest)
      have hrest : pid ∉ rest := fun hh => hmem (List.mem_cons_of_mem p hh)
      simp [publish_to_platforms, writesFor, hne, ih hrest]

/-- Each platform in a duplicate-free job list is written exactly twice
by the background task: its `uploading` record, then its final
record. -/
lemma writesFor_two (env : XhsEnv) (jobId v t d : String) :
    ∀ (ps : List String), ps.Nodup → ∀ pid ∈ ps,
      writesFor pid (publish_to_platforms env jobId v t d ps)
        = [uploadingStatus pid env.now, platformResult env pid v t d] := by
  intro ps
  induction ps with
  | nil => intro _ pid hp; cases hp
  | cons p rest ih =>
      intro hnd pid hp
      have hnd' := List.nodup_cons.mp hnd
      rcases List.mem_cons.mp hp with hh | hh
      · subst hh
        simp [publish_to_platforms, writesFor,
          writesFor_not_mem env jobId v t d pid rest hnd'.1]
      · have hne : ¬ (p = pid) := fun he => hnd'.1 (he ▸ hh)
        simp [publish_to_platforms, writesFor, hne, ih hnd'.2 pid hh]

/-- C2 counterexample: in a job for the platform `bilibili`, the record
written when the sequencer finishes has status `pending` — the
placeholder publisher's fixed record — which is not a terminal
`success`/`failed` state, refuting the claimed lifecycle. -/
theorem lifecycle_counterexample :
    writesFor "bilibili"
        (publish_to_platforms ⟨true, true, none, "", 0⟩ "j" "v" "t" "" ["bilibili"])
      = [uploadingStatus "bilibili" 0,
         ⟨"bilibili", "pending", some "Bilibili发布功能开发中", 0⟩] ∧
    ("pending" : String) ≠ "success" ∧ ("pending" : String) ≠ "failed" := by
  refine ⟨?_, by decide, by decide⟩
  rfl

/-- C2 amended: for every job over a duplicate-free platform list, each
platform's record is written exactly twice after its initial `pending`:
`uploading` when the sequencer begins it, then one final record after
which it is never overwritten within the job.  The final record is
terminal (`success` or `failed`) for `xiaohongshu` and for unregistered
platforms, but the placeholder publishers for `bilibili` and `weibo`
leave a final status of `pending`. -/
theorem lifecycle_amended (env : XhsEnv) (jobId v t d : String)
    (ps : List String) (hnd : ps.Nodup) (pid : String) (hp : pid ∈ ps) :
    writesFor pid (publish_to_platforms env jobId v t d ps)
      = [uploadingStatus pid env.now, platformResult env pid v t d] ∧
    ((pid = "bilibili" ∨ pid = "weibo") →
      (platformResult env pid v t d).status = "pending") ∧
    (pid ≠ "bilibili" → pid ≠ "weibo" →
      (platformResult env pid v t d).status = "success" ∨
      (platformResult env pid v t d).status = "failed") := by
  refine ⟨writesFor_two env jobId v t d ps hnd pid hp, ?_, ?_⟩
  · rintro (h | h) <;> subst h <;>
      simp [platformResult, PLATFORM_PUBLISHERS, publish_to_bilibili, publish_to_weibo]
  · intro hb hw
    by_cases hx : pid = "xiaohongshu"
    · simp only [platformResult, PLATFORM_PUBLISHERS, hx, if_true]
      rcases xhs_status_cases env v t d with h | h
      · exact Or.inr h
      · exact Or.inl h
    · right
      simp [platformResult, PLATFORM_PUBLISHERS, hx, hb, hw]

/-- Witness for the amended C2: the single-platform job `["bilibili"]`. -/
theorem lifecycle_amended_witness :
    writesFor "bilibili"
        (publish_to_platforms ⟨true, true, none, "", 0⟩ "j2" "v" "t" "" ["bilibili"])
      = [uploadingStatus "bilibili" 0,
         platformResult ⟨true, true, none, "", 0⟩ "bilibili" "v" "t" ""] ∧
    (("bilibili" : String) = "bilibili" ∨ ("bilibili" : String) = "weibo" →
      (platformResult ⟨true, true, none, "", 0⟩ "bilibili" "v" "t" "").status = "pending") ∧
    (("bilibili" : String) ≠ "bilibili" → ("bilibili" : String) ≠ "weibo" →
      (platformResult ⟨true, true, none, "", 0⟩ "bilibili" "v" "t" "").status = "success" ∨
      (platformResult ⟨true, true, none, "", 0⟩ "bilibili" "v" "t" "").status = "failed") :=
  lifecycle_amended ⟨true, true, none, "", 0⟩ "j2" "v" "t" "" ["bilibili"]
    (List.nodup_singleton "bilibili") "bilibili" (List.mem_singleton.mpr rfl)

/-- The trace of the background task is the concatenation, in the
caller-supplied platform order, of one block per platform: its
`uploading` write, its final write, then the fixed 5-second delay. -/
lemma publish_to_platforms_blocks (env : XhsEnv) (jobId v t d : String) :
    ∀ (ps : List String),
      publish_to_platforms env jobId v t d ps
        = ps.flatMap (fun pid =>
            [PubEvent.statusWrite jobId pid (uploadingStatus pid env.now),
             PubEvent.statusWrite jobId pid (platformResult env pid v t d),
             PubEvent.interDelay 5]) := by
  intro ps
  induction ps with
  | nil => simp [publish_to_platforms]
  | cons p rest ih => simp [publish_to_platforms, ih]

/-- Platform ids of the tracker writes, in write order: each platform's
two writes are adjacent and the blocks follow the caller-supplied
order. -/
lemma writePids_eq (env : XhsEnv) (jobId v t d : String) :
    ∀ (ps : List String),
      writePids (publish_to_platforms env jobId v t d ps)
        = ps.flatMap (fun pid => [pid, pid]) := by
  intro ps
  induction ps with
  | nil => simp [publish_to_platforms, writePids]
  | cons p rest ih => simp [publish_to_platforms, writePids, ih]

/-- Along every prefix of the background task's trace, at most one
platform is in the `uploading` state. -/
lemma inflight_prefix (env : XhsEnv) (jobId v t d : String) :
    ∀ (ps : List String) (pre suf : List PubEvent),
      publish_to_platforms env jobId v t d ps = pre ++ suf →
      (inflightAfter pre).length ≤ 1 := by
  intro ps
  induction ps with
  | nil =>
      intro pre suf h
      simp only [publish_to_platforms] at h
      rcases List.append_eq_nil.mp h.symm with ⟨h1, _⟩
      subst h1
      simp [inflightAfter]
  | cons p rest ih =>
      intro pre suf h
      simp only [publish_to_platforms] at h
      match pre, h with
      | [], _ => simp [inflightAfter]
      | [a], h =>
          rw [List.singleton_append] at h
          injection h with h1 _
          subst h1
          simp [inflightAfter, inflightUpd, uploadingStatus]
      | [a, b], h =>
          rw [List.cons_append, List.cons_append, List.nil_append] at h
          injection h with h1 h'
          injection h' with h2 _
          subst h1
          subst h2
          simp [inflightAfter, inflightUpd, uploadingStatus,
            platformResult_status_ne_uploading env p v t d]
      | a :: b :: c :: pre', h =>
          rw [List.cons_append, List.cons_append, List.cons_append] at h
          injection h with h1 h'
          injection h' with h2 h''
          injection h'' with h3 h'''
          subst h1
          subst h2
          subst h3
          have : inflightAfter (PubEvent.statusWrite jobId p (uploadingStatus p env.now) ::
              PubEvent.statusWrite jobId p (platformResult env p v t d) ::
              PubEvent.interDelay 5 :: pre') = inflightAfter pre' := by
            simp [inflightAfter, inflightUpd, uploadingStatus,
              platformResult_status_ne_uploading env p v t d]
          rw [this]
          exact ih pre' suf h'''

/-- C8: the background task processes a job's platforms strictly
sequentially in the caller-supplied order — the trace is the
concatenation of per-platform blocks, each ending with the fixed
5-second inter-platform delay, each platform's two tracker writes
adjacent — and along every prefix of the trace at most one platform is
in the `uploading` state, so no two platforms of the job ever run
concurrently. -/
theorem publish_strictly_sequential (env : XhsEnv) (jobId v t d : String)
    (ps : List String) :
    publish_to_platforms env jobId v t d ps
      = ps.flatMap (fun pid =>
          [PubEvent.statusWrite jobId pid (uploadingStatus pid env.now),
           PubEvent.statusWrite jobId pid (platformResult env pid v t d),
           PubEvent.interDelay 5]) ∧
    writePids (publish_to_platforms env jobId v t d ps)
      = ps.flatMap (fun pid => [pid, pid]) ∧
    ∀ pre suf, publish_to_platforms env jobId v t d ps = pre ++ suf →
      (inflightAfter pre).length ≤ 1 :=
  ⟨publish_to_platforms_blocks env jobId v t d ps,
   writePids_eq env jobId v t d ps,
   inflight_prefix env jobId v t d ps⟩

/-- Witness for C8: a two-platform job, checking the in-flight bound on
a concrete prefix of the trace. -/
theorem publish_strictly_sequential_witness :
    (inflightAfter ((publish_to_platforms ⟨true, true, none, "", 0⟩
        "j" "v" "t" "" ["xiaohongshu", "weibo"]).take 4)).length ≤ 1 :=
  (publish_strictly_sequential ⟨true, true, none, "", 0⟩ "j" "v" "t" ""
      ["xiaohongshu", "weibo"]).2.2
    ((publish_to_platforms ⟨true, true, none, "", 0⟩
        "j" "v" "t" "" ["xiaohongshu", "weibo"]).take 4)
    ((publish_to_platforms ⟨true, true, none, "", 0⟩
        "j" "v" "t" "" ["xiaohongshu", "weibo"]).drop 4)
    (List.take_append_drop 4 _).symm

/-- The environment of the concrete scenario of C3: valid session
artifacts on disk for xiaohongshu and an automation sequence that
completes without an exception. -/
def demoEnv : XhsEnv := ⟨true, true, none, "", 0⟩

/-- Trace of the C3 scenario: a job over `["xiaohongshu", "weibo"]`. -/
def demoTrace : List PubEvent :=
  publish_to_platforms demoEnv "20240101_000000" "v.mp4" "标题" "" ["xiaohongshu", "weibo"]

/-- The job's tracker map as initialised by `publish_video`. -/
def demoInit : List (String × PublishStatus) :=
  [("xiaohongshu", pendingStatus "xiaohongshu" 0), ("weibo", pendingStatus "weibo" 0)]

/-- The job's tracker map after the background task finishes. -/
def demoFinal : List (String × PublishStatus) := applyPubEvents demoInit demoTrace

/-- C3 counterexample: in the claimed scenario, weibo's final record has
status `pending` with the in-development message `微博发布功能开发中` —
`publish_to_weibo` is registered in `PLATFORM_PUBLISHERS`, so the
unsupported-platform branch (`failed` / `不支持的平台`) is never taken
for weibo, refuting the claimed final state. -/
theorem weibo_scenario_counterexample :
    lookupA demoFinal "weibo"
      = some ⟨"weibo", "pending", some "微博发布功能开发中", 0⟩ ∧
    ("pending" : String) ≠ "failed" := by
  refine ⟨?_, by decide⟩
  rfl

/-- C3 amended: in the scenario, xiaohongshu's record ends `success`,
weibo's record ends `pending` with the in-development message (not
`failed`/unsupported), both platforms are attempted — each is written
`uploading` and then once more — and no trace prefix ever has more than
one platform in the `uploading` state. -/
theorem weibo_scenario_amended :
    lookupA demoFinal "xiaohongshu"
      = some ⟨"xiaohongshu", "success", some "发布成功", 0⟩ ∧
    lookupA demoFinal "weibo"
      = some ⟨"weibo", "pending", some "微博发布功能开发中", 0⟩ ∧
    writesFor "xiaohongshu" demoTrace
      = [uploadingStatus "xiaohongshu" 0,
         ⟨"xiaohongshu", "success", some "发布成功", 0⟩] ∧
    writesFor "weibo" demoTrace
      = [uploadingStatus "weibo" 0,
         ⟨"weibo", "pending", some "微博发布功能开发中", 0⟩] ∧
    demoTrace.inits.all (fun pre => decide ((inflightAfter pre).length ≤ 1)) = true := by
  refine ⟨rfl, rfl, rfl, rfl, ?_⟩
  rfl

/-- When the success indicator never appears, the polling loop from
`wait_count = c` performs exactly the remaining `30 - c` ten-second
waits and then quits the driver, writing nothing. -/
lemma monitorLoop_none (env : MonitorEnv) (h : env.detectedAt = none) :
    ∀ (n c : Nat), 29 - c = n → c ≤ 29 →
      monitorLoop env c
        = (List.range' c (30 - c)).map (fun i => MonEvent.waitAttempt i 10)
          ++ [MonEvent.driverQuit] := by
  intro n
  induction n with
  | zero =>
      intro c hn hc
      have hc29 : c = 29 := by omega
      subst hc29
      rw [monitorLoop]
      simp [detected, h, List.range']
  | succ n ih =>
      intro c hn hc
      have hlt : c < 29 := by omega
      rw [monitorLoop]
      rw [show detected env c = false from by simp [detected, h]]
      rw [dif_neg (by omega : ¬ (c + 1 ≥ 30))]
      rw [ih (c + 1) (by omega) (by omega)]
      rw [show 30 - c = (30 - (c + 1)) + 1 from by omega]
      simp [List.range']

/-- When the success indicator is present from attempt `k ≤ 29` on, the
polling loop from `wait_count = c ≤ k` times out on attempts `c .. k-1`,
detects success on attempt `k`, writes the cookie file and the two
`save_user_data` records, and quits the driver. -/
lemma monitorLoop_detected (env : MonitorEnv) (k : Nat)
    (h : env.detectedAt = some k) (hk : k ≤ 29) :
    ∀ (n c : Nat), k - c = n → c ≤ k →
      monitorLoop env c
        = (List.range' c (k - c + 1)).map (fun i => MonEvent.waitAttempt i 10)
          ++ [MonEvent.fileWrite FileId.cookieFile env.browserCookies,
              MonEvent.fileWrite (FileId.userLoginHistory env.now) env.browserCookies,
              MonEvent.fileWrite FileId.latestLogin env.browserCookies,
              MonEvent.driverQuit] := by
  intro n
  induction n with
  | zero =>
      intro c hn hc
      have hck : c = k := by omega
      subst hck
      rw [monitorLoop]
      rw [show detected env c = true from by simp [detected, h]]
      simp [save_user_data, List.range']
  | succ n ih =>
      intro c hn hc
      have hlt : c < k := by omega
      rw [monitorLoop]
      rw [show detected env c = false from by
        simp only [detected, h, decide_eq_false_iff_not]
        omega]
      rw [dif_neg (by omega : ¬ (c + 1 ≥ 30))]
      rw [ih (c + 1) (by omega) (by omega)]
      rw [show k - c + 1 = (k - (c + 1) + 1) + 1 from by omega]
      simp [List.range']

/-- C5: a login watch whose success indicator never appears performs
exactly 30 poll attempts of 10 seconds each, quits the browser, writes
no file at all, and ends with the monitor-active flag cleared. -/
theorem monitor_timeout_bounded (env : MonitorEnv)
    (hd : env.driverOk = true) (hn : env.detectedAt = none) :
    waitTimeouts (monitor_xiaohongshu_login env).events = List.replicate 30 10 ∧
    MonEvent.driverQuit ∈ (monitor_xiaohongshu_login env).events ∧
    (∀ (f : FileId) (c : List String),
      MonEvent.fileWrite f c ∉ (monitor_xiaohongshu_login env).events) ∧
    (monitor_xiaohongshu_login env).monitorActive = false := by
  have hloop := monitorLoop_none env hn 29 0 rfl (by omega)
  refine ⟨?_, ?_, ?_, ?_⟩
  · simp only [monitor_xiaohongshu_login, hd, if_true]
    rw [hloop]
    rfl
  · simp only [monitor_xiaohongshu_login, hd, if_true]
    rw [hloop]
    simp
  · intro f c
    simp only [monitor_xiaohongshu_login, hd, if_true]
    rw [hloop]
    simp
  · simp [monitor_xiaohongshu_login, hd]

/-- Witness for C5: a concrete run in which the indicator never
appears. -/
theorem monitor_timeout_bounded_witness :
    waitTimeouts (monitor_xiaohongshu_login ⟨true, none, [], 0⟩).events
      = List.replicate 30 10 ∧
    MonEvent.driverQuit ∈ (monitor_xiaohongshu_login ⟨true, none, [], 0⟩).events ∧
    (∀ (f : FileId) (c : List String),
      MonEvent.fileWrite f c ∉ (monitor_xiaohongshu_login ⟨true, none, [], 0⟩).events) ∧
    (monitor_xiaohongshu_login ⟨true, none, [], 0⟩).monitorActive = false :=
  monitor_timeout_bounded ⟨true, none, [], 0⟩ rfl rfl

/-- Poll attempts contribute no file writes. -/
lemma writtenCookies_wait_append (f : FileId) (L : List Nat) (rest : List MonEvent) :
    writtenCookies f ((L.map (fun i => MonEvent.waitAttempt i 10)) ++ rest)
      = writtenCookies f rest := by
  induction L with
  | nil => simp
  | cons a L ih => simp [writtenCookies, ih]

/-- C6: a login watch that detects the success indicator (at some poll
attempt `k` within the 30-attempt bound) writes exactly one "latest"
session-artifact record, exactly one timestamped historical copy, and
one cookie file, all carrying the same cookie set extracted from the
browser context. -/
theorem monitor_success_writes (env : MonitorEnv) (k : Nat)
    (hd : env.driverOk = true) (hk : env.detectedAt = some k) (h30 : k ≤ 29) :
    writtenCookies FileId.latestLogin (monitor_xiaohongshu_login env).events
      = [env.browserCookies] ∧
    writtenCookies (FileId.userLoginHistory env.now) (monitor_xiaohongshu_login env).events
      = [env.browserCookies] ∧
    writtenCookies FileId.cookieFile (monitor_xiaohongshu_login env).events
      = [env.browserCookies] := by
  have hloop := monitorLoop_detected env k hk h30 k 0 (by omega) (by omega)
  refine ⟨?_, ?_, ?_⟩ <;>
    · simp only [monitor_xiaohongshu_login, hd, if_true]
      rw [hloop]
      rw [show ∀ (f : FileId) (X : List MonEvent),
            writtenCookies f (MonEvent.getDriver :: MonEvent.navigateLogin :: X)
              = writtenCookies f X from fun _ _ => rfl]
      rw [writtenCookies_wait_append]
      simp [writtenCookies]

/-- Witness for C6: detection on the fourth poll attempt with one
cookie in the browser context. -/
theorem monitor_success_writes_witness :
    writtenCookies FileId.latestLogin
        (monitor_xiaohongshu_login ⟨true, some 3, ["ck"], 5⟩).events = [["ck"]] ∧
    writtenCookies (FileId.userLoginHistory 5)
        (monitor_xiaohongshu_login ⟨true, some 3, ["ck"], 5⟩).events = [["ck"]] ∧
    writtenCookies FileId.cookieFile
        (monitor_xiaohongshu_login ⟨true, some 3, ["ck"], 5⟩).events = [["ck"]] :=
  monitor_success_writes ⟨true, some 3, ["ck"], 5⟩ 3 rfl rfl (by omega)

/-- Every `open_app` request either starts no watcher thread and leaves
the flag unchanged, or — only when the flag was clear — starts exactly
one watcher thread and sets the flag. -/
lemma open_app_flag_starts (name : String) (b : Bool) (env : OpenEnv) :
    (countStarts (open_app name b env).actions = 0 ∧
     (open_app name b env).monitorActive = b) ∨
    (b = false ∧ countStarts (open_app name b env).actions = 1 ∧
     (open_app name b env).monitorActive = true) := by
  rcases h : findApp name with _ | app
  · left
    simp [open_app, h, countStarts]
  · by_cases hs : app.special_handler = some "xiaohongshu_login"
    · cases b
      · right
        simp [open_app, h, hs, countStarts]
      · left
        simp [open_app, h, hs, countStarts]
    · rcases hu : app.url with _ | u
      · left
        simp [open_app, h, hs, hu, countStarts]
      · by_cases ho : env.osOpenOk <;>
          · left
            simp [open_app, h, hs, hu, ho, countStarts]

/-- Invariant of the login-watch system: at most one watcher runs, and
none runs while the flag is clear. -/
def SysInv (s : SysState) : Prop :=
  s.runningWatches ≤ 1 ∧ (s.monitorActive = false → s.runningWatches = 0)

/-- The invariant holds in every reachable state. -/
lemma reachable_inv : ∀ s, Reachable s → SysInv s := by
  intro s h
  induction h with
  | init => exact ⟨Nat.zero_le 1, fun _ => rfl⟩
  | step hr hstep ih =>
      rename_i s1 s2
      cases hstep with
      | request name env =>
          rcases open_app_flag_starts name s1.monitorActive env with ⟨h0, hf⟩ | ⟨hb, h1, hf⟩
          · refine ⟨?_, fun hff => ?_⟩
            · show s1.runningWatches + countStarts (open_app name s1.monitorActive env).actions ≤ 1
              rw [h0]
              simpa using ih.1
            · show s1.runningWatches + countStarts (open_app name s1.monitorActive env).actions = 0
              have hff' : (open_app name s1.monitorActive env).monitorActive = false := hff
              rw [hf] at hff'
              rw [h0, ih.2 hff']
          · have hz : s1.runningWatches = 0 := ih.2 hb
            refine ⟨?_, fun hff => ?_⟩
            · show s1.runningWatches + countStarts (open_app name s1.monitorActive env).actions ≤ 1
              rw [h1, hz]
            · have hff' : (open_app name s1.monitorActive env).monitorActive = false := hff
              rw [hf] at hff'
              exact absurd hff' (by decide)
      | monitorEnd _ hpos =>
          have h1 := ih.1
          refine ⟨?_, fun _ => ?_⟩
          · show s1.runningWatches - 1 ≤ 1
            omega
          · show s1.runningWatches - 1 = 0
            omega

/-- C7: while the monitor-active flag is set, a request to open the
login-watched app is rejected with a non-error already-running response
(`success = false`, no HTTP exception), starts no second watcher thread
and leaves the flag set; and in every reachable system state at most one
login watch is running. -/
theorem monitor_mutual_exclusion :
    (∀ (name : String) (env : OpenEnv) (app : AppInfo),
        findApp name = some app →
        app.special_handler = some "xiaohongshu_login" →
        open_app name true env =
          ⟨none, some ⟨false, "登录监控已在运行中，请完成当前登录", none⟩, true, []⟩) ∧
    (∀ s, Reachable s → s.runningWatches ≤ 1) := by
  constructor
  · intro name env app hfind hspec
    simp [open_app, hfind, hspec]
  · intro s hs
    exact (reachable_inv s hs).1

/-- Witness for C7: the xiaohongshu entry of the catalog while the flag
is set, and the initial reachable state. -/
theorem monitor_mutual_exclusion_witness :
    open_app "小红书" true ⟨true, "e"⟩ =
      ⟨none, some ⟨false, "登录监控已在运行中，请完成当前登录", none⟩, true, []⟩ ∧
    (⟨false, 0⟩ : SysState).runningWatches ≤ 1 :=
  ⟨monitor_mutual_exclusion.1 "小红书" ⟨true, "e"⟩ _ rfl rfl,
   monitor_mutual_exclusion.2 ⟨false, 0⟩ Reachable.init⟩

end OncClickOp
